import Mathlib

/-!
Shallow embedding of the trade-outcome predictor module
(`TradePredictor` in the source) and proofs about its behaviour.

JavaScript numbers that can become `NaN` or `Infinity` on the paths the
predictor exercises (stop-loss with a missing price, position sizing with a
zero stop distance) are modelled by the `JSNum` type; everywhere else the
arithmetic stays inside `ℚ`.  The wall clock read by the source
(`new Date()`) is threaded through as an explicit `now : ℚ` parameter
(milliseconds).  `Number(x.toFixed(2))` is modelled by `round2`.
-/

namespace TradePredictor

/-- A JavaScript number on the fallible paths: a finite rational, `NaN`,
`+Infinity` or `-Infinity`. -/
inductive JSNum where
  | num : ℚ → JSNum
  | nan : JSNum
  | posInf : JSNum
  | negInf : JSNum
deriving DecidableEq, Repr

/-- Multiplication of a `JSNum` by a finite constant, JS semantics
(`NaN` absorbs; `Infinity * 0 = NaN`). -/
def jsMulC : JSNum → ℚ → JSNum
  | JSNum.num q, c => JSNum.num (q * c)
  | JSNum.nan, _ => JSNum.nan
  | JSNum.posInf, c => if 0 < c then JSNum.posInf else if c < 0 then JSNum.negInf else JSNum.nan
  | JSNum.negInf, c => if 0 < c then JSNum.negInf else if c < 0 then JSNum.posInf else JSNum.nan

/-- Subtraction on `JSNum`, JS semantics. -/
def jsSub : JSNum → JSNum → JSNum
  | JSNum.num a, JSNum.num b => JSNum.num (a - b)
  | JSNum.nan, _ => JSNum.nan
  | _, JSNum.nan => JSNum.nan
  | JSNum.posInf, JSNum.posInf => JSNum.nan
  | JSNum.negInf, JSNum.negInf => JSNum.nan
  | JSNum.posInf, _ => JSNum.posInf
  | JSNum.negInf, _ => JSNum.negInf
  | JSNum.num _, JSNum.posInf => JSNum.negInf
  | JSNum.num _, JSNum.negInf => JSNum.posInf

/-- `Math.abs` on `JSNum`. -/
def jsAbs : JSNum → JSNum
  | JSNum.num a => JSNum.num |a|
  | JSNum.nan => JSNum.nan
  | JSNum.posInf => JSNum.posInf
  | JSNum.negInf => JSNum.posInf

/-- Division on `JSNum`, JS semantics: division by zero gives a signed
infinity (or `NaN` for `0 / 0`). -/
def jsDiv : JSNum → JSNum → JSNum
  | JSNum.num a, JSNum.num b =>
      if b = 0 then
        if a = 0 then JSNum.nan else if 0 < a then JSNum.posInf else JSNum.negInf
      else JSNum.num (a / b)
  | JSNum.nan, _ => JSNum.nan
  | _, JSNum.nan => JSNum.nan
  | JSNum.num _, JSNum.posInf => JSNum.num 0
  | JSNum.num _, JSNum.negInf => JSNum.num 0
  | JSNum.posInf, JSNum.num b => if b < 0 then JSNum.negInf else JSNum.posInf
  | JSNum.negInf, JSNum.num b => if b < 0 then JSNum.posInf else JSNum.negInf
  | JSNum.posInf, JSNum.posInf => JSNum.nan
  | JSNum.posInf, JSNum.negInf => JSNum.nan
  | JSNum.negInf, JSNum.posInf => JSNum.nan
  | JSNum.negInf, JSNum.negInf => JSNum.nan

/-- `Math.floor` on `JSNum` (`floor` of `NaN` / infinities is itself). -/
def jsFloor : JSNum → JSNum
  | JSNum.num a => JSNum.num (⌊a⌋ : ℚ)
  | JSNum.nan => JSNum.nan
  | JSNum.posInf => JSNum.posInf
  | JSNum.negInf => JSNum.negInf

/-- An absent (`undefined`) number becomes `NaN` as soon as it enters
arithmetic. -/
def jsOfOpt : Option ℚ → JSNum
  | none => JSNum.nan
  | some q => JSNum.num q

/-- `Number(x.toFixed(2))`: round to two decimal places. -/
def round2 (q : ℚ) : ℚ := (round (q * 100) : ℚ) / 100

/-- A journaled historical trade (source: objects in the prediction
history array). `timestamp` is optional milliseconds since the epoch. -/
structure TradeRecord where
  modelType : String
  session : String
  qualityScore : ℚ
  result : String
  timestamp : Option ℚ := none
deriving DecidableEq, Repr

/-- A candidate trade setup (source: the `setup` argument).  Missing
(`undefined`) string fields are modelled by `""` — both are falsy in the
source's validation; optional numeric fields are `Option ℚ`. -/
structure TradeSetup where
  modelType : String := ""
  session : String := ""
  qualityScore : ℚ := 0
  currentPrice : Option ℚ := none
  volatility : Option String := none
  accountBalance : Option ℚ := none
  maxRiskPercent : Option ℚ := none
  timeframes : Option (List String) := none
deriving DecidableEq, Repr

/-- Source `_validateSetup`: truthy `modelType` and `session`, numeric
`qualityScore` within `[0, 5]`. -/
def validateSetup (setup : TradeSetup) : Bool :=
  setup.modelType ≠ "" && setup.session ≠ "" &&
    decide (0 ≤ setup.qualityScore) && decide (setup.qualityScore ≤ 5)

/-- Source `_findSimilarTrades`: exact matches (same model type and
session, quality within `0.2`); if fewer than two, the broader `0.5`
tolerance; at most five records either way. -/
def findSimilarTrades (setup : TradeSetup) (history : List TradeRecord) :
    List TradeRecord :=
  if history.isEmpty then []
  else
    let exactMatches := history.filter fun trade =>
      trade.modelType == setup.modelType && trade.session == setup.session &&
        decide (|trade.qualityScore - setup.qualityScore| ≤ 2/10)
    if 2 ≤ exactMatches.length then
      exactMatches.take 5
    else
      (history.filter fun trade =>
        trade.modelType == setup.modelType && trade.session == setup.session &&
          decide (|trade.qualityScore - setup.qualityScore| ≤ 5/10)).take 5

/-- Source `_calculateTradeWeight`: quality-scaled base weight times a
recency factor, rounded to two decimals, floored at `0.2`. -/
def calculateTradeWeight (trade : TradeRecord) (now : ℚ) : ℚ :=
  let baseWeight : ℚ := 2/10
  let qualityFactor : ℚ := trade.qualityScore / 5
  let qualityWeight : ℚ := baseWeight + qualityFactor * (13/10)
  let recencyFactor : ℚ :=
    match trade.timestamp with
    | none => 1
    | some ts =>
        let daysSince : ℚ := (now - ts) / 86400000
        max (8/10) (1 - daysSince / 30)
  max (2/10) (round2 (qualityWeight * recencyFactor))

/-- The probability/confidence pair produced by `_calculateProbability`. -/
structure ProbResult where
  probability : ℚ
  confidence : ℚ
deriving DecidableEq, Repr

/-- Source `_calculateProbability`: empty matches give the
`{0, 0.1}` floor; otherwise the success ratio and the clamped average
trade weight, each rounded to two decimals. -/
def calculateProbability (similarTrades : List TradeRecord) (now : ℚ) :
    ProbResult :=
  if similarTrades.isEmpty then
    { probability := 0, confidence := 1/10 }
  else
    let successCount : ℚ :=
      ((similarTrades.filter fun t => t.result == "Success").length : ℚ)
    let totalCount : ℚ := (similarTrades.length : ℚ)
    let weights : List ℚ := similarTrades.map fun t => calculateTradeWeight t now
    let avgQuality : ℚ := weights.sum / (weights.length : ℚ)
    { probability := round2 (successCount / totalCount)
      confidence := round2 (max (15/100) (min avgQuality 1)) }

/-- Source `_calculateEntry`: `setup.currentPrice || 0`. -/
def calculateEntry (setup : TradeSetup) : ℚ :=
  setup.currentPrice.getD 0

/-- Source `_calculateStopLoss`: `currentPrice * (1 - 0.01)` with a fixed
1% risk constant (a missing price propagates as `NaN`). -/
def calculateStopLoss (setup : TradeSetup) : JSNum :=
  let riskPercentage : ℚ := 1/100
  jsMulC (jsOfOpt setup.currentPrice) (1 - riskPercentage)

/-- Source `_adjustForVolatility`: tighten the stop by 15% when the
setup's volatility is the string `"high"`. -/
def adjustForVolatility (setup : TradeSetup) (baseStopLoss : JSNum) : JSNum :=
  if setup.volatility == some "high" then jsMulC baseStopLoss (85/100)
  else baseStopLoss

/-- Source `_analyzeTimeframes`: `null` when no timeframes, otherwise a
constant placeholder `{trend: "bullish", strength: 0.8}` per label. -/
def analyzeTimeframes (setup : TradeSetup) :
    Option (List (String × String × ℚ)) :=
  match setup.timeframes with
  | none => none
  | some tfs =>
      if tfs.isEmpty then none
      else some (tfs.map fun tf => (tf, ("bullish", 8/10)))

/-- Source `_calculatePositionSize`: `null` when `accountBalance` or
`maxRiskPercent` is absent or zero (falsy); otherwise
`Math.floor(riskAmount / stopDistance)` with no guard on the stop
distance. -/
def calculatePositionSize (setup : TradeSetup) (stopLoss : JSNum) :
    Option JSNum :=
  match setup.accountBalance, setup.maxRiskPercent with
  | some bal, some pct =>
      if bal = 0 ∨ pct = 0 then none
      else
        let riskAmount : ℚ := bal * (pct / 100)
        let stopDistance : JSNum := jsAbs (jsSub (jsOfOpt setup.currentPrice) stopLoss)
        some (jsFloor (jsDiv (JSNum.num riskAmount) stopDistance))
  | _, _ => none

/-- The prediction object assembled by `predictSetup`.  The source's
`timestamp: formatDate(new Date())` field is modelled by the raw clock
value. -/
structure Prediction where
  probability : ℚ
  confidence : ℚ
  recommendedEntry : ℚ
  suggestedStopLoss : JSNum
  adjustedStopLoss : JSNum
  timeframeAlignment : Option (List (String × String × ℚ))
  positionSize : Option JSNum
  timestamp : ℚ
deriving DecidableEq, Repr

/-- Source `predictSetup`: validate, select similar trades, score them and
assemble the risk outputs.  The history is the argument the source fetches
from its journaling collaborator, and `now` is the wall clock it reads. -/
def predictSetup (setup : TradeSetup) (history : List TradeRecord) (now : ℚ) :
    Except String Prediction :=
  if !validateSetup setup then
    Except.error "Invalid setup data"
  else
    let similarTrades := findSimilarTrades setup history
    let prediction := calculateProbability similarTrades now
    let baseStopLoss := calculateStopLoss setup
    Except.ok
      { probability := prediction.probability
        confidence := prediction.confidence
        recommendedEntry := calculateEntry setup
        suggestedStopLoss := baseStopLoss
        adjustedStopLoss := adjustForVolatility setup baseStopLoss
        timeframeAlignment := analyzeTimeframes setup
        positionSize := calculatePositionSize setup baseStopLoss
        timestamp := now }

/-- Spec-side tier filter: same model type, same session, quality score
within the given tolerance (inclusive). -/
def tierFilter (setup : TradeSetup) (tol : ℚ) (history : List TradeRecord) :
    List TradeRecord :=
  history.filter fun r =>
    r.modelType == setup.modelType && r.session == setup.session &&
      decide (|r.qualityScore - setup.qualityScore| ≤ tol)

/-- Similarity selection written from the spec's words: Tier 1 at
tolerance `0.2`; if it has at least two records, its first five in history
order, otherwise the first five of the Tier 2 filter at tolerance `0.5`. -/
def selectSpec (setup : TradeSetup) (history : List TradeRecord) :
    List TradeRecord :=
  let tier1 := tierFilter setup (2/10) history
  if 2 ≤ tier1.length then tier1.take 5
  else (tierFilter setup (5/10) history).take 5

theorem round2_mono {a b : ℚ} (h : a ≤ b) : round2 a ≤ round2 b := by
  unfold round2
  have hr : round (a * 100) ≤ round (b * 100) := by
    rw [round_eq, round_eq]
    exact Int.floor_mono (by linarith)
  have hc : ((round (a * 100) : ℤ) : ℚ) ≤ ((round (b * 100) : ℤ) : ℚ) :=
    Int.cast_le.mpr hr
  linarith

theorem round2_zero : round2 0 = 0 := by norm_num [round2, round_eq]

theorem round2_one : round2 1 = 1 := by norm_num [round2, round_eq]

theorem round2_fifth : round2 (1/5) = 1/5 := by norm_num [round2, round_eq]

theorem round2_eps : round2 (15/100) = 15/100 := by
  norm_num [round2, round_eq]

theorem calculateTradeWeight_ge (t : TradeRecord) (now : ℚ) :
    1/5 ≤ calculateTradeWeight t now := by
  unfold calculateTradeWeight
  have : (1:ℚ)/5 = 2/10 := by norm_num
  rw [this]
  exact le_max_left _ _

theorem calculateProbability_bounds (l : List TradeRecord) (now : ℚ) :
    0 ≤ (calculateProbability l now).probability ∧
      (calculateProbability l now).probability ≤ 1 ∧
      1/10 ≤ (calculateProbability l now).confidence ∧
      (calculateProbability l now).confidence ≤ 1 := by
  unfold calculateProbability
  split
  · norm_num
  · next hne =>
    have hlen : 0 < l.length := by
      cases l with
      | nil => simp at hne
      | cons a t => simp
    have hlenQ : (0:ℚ) < (l.length : ℚ) := by exact_mod_cast hlen
    have hratio0 : (0:ℚ) ≤
        ((l.filter fun t => t.result == "Success").length : ℚ) / (l.length : ℚ) :=
      div_nonneg (by positivity) (le_of_lt hlenQ)
    have hratio1 :
        ((l.filter fun t => t.result == "Success").length : ℚ) / (l.length : ℚ) ≤ 1 := by
      rw [div_le_one hlenQ]
      exact_mod_cast List.length_filter_le _ l
    have hconf_lo : (15:ℚ)/100 ≤
        max (15/100) (min ((l.map fun t => calculateTradeWeight t now).sum /
          ((l.map fun t => calculateTradeWeight t now).length : ℚ)) 1) :=
      le_max_left _ _
    have hconf_hi :
        max (15/100) (min ((l.map fun t => calculateTradeWeight t now).sum /
          ((l.map fun t => calculateTradeWeight t now).length : ℚ)) 1) ≤ 1 :=
      max_le (by norm_num) (min_le_right _ _)
    refine ⟨?_, ?_, ?_, ?_⟩
    · simpa [round2_zero] using round2_mono hratio0
    · simpa [round2_one] using round2_mono hratio1
    · have := round2_mono hconf_lo
      rw [round2_eps] at this
      simp only []
      linarith
    · simpa [round2_one] using round2_mono hconf_hi

/-- C1: every prediction that `predictSetup` successfully returns has its
probability in `[0,1]` and its confidence in `[0.1,1]`. -/
theorem predictSetup_prediction_bounds (setup : TradeSetup)
    (history : List TradeRecord) (now : ℚ) (pred : Prediction)
    (h : predictSetup setup history now = Except.ok pred) :
    0 ≤ pred.probability ∧ pred.probability ≤ 1 ∧
      1/10 ≤ pred.confidence ∧ pred.confidence ≤ 1 := by
  unfold predictSetup at h
  split at h
  · exact absurd h (by simp)
  · injection h with h
    subst h
    simpa using calculateProbability_bounds (findSimilarTrades setup history) now

/-- Concrete input for the C1 witness. -/
def setupW1 : TradeSetup :=
  { modelType := "FVG-RD", session := "London", qualityScore := 4 }

theorem predictSetup_prediction_bounds_witness :
    ∃ pred : Prediction,
      0 ≤ pred.probability ∧ pred.probability ≤ 1 ∧
        1/10 ≤ pred.confidence ∧ pred.confidence ≤ 1 := by
  refine ⟨{ probability := 0, confidence := 1/10, recommendedEntry := 0,
            suggestedStopLoss := JSNum.nan, adjustedStopLoss := JSNum.nan,
            timeframeAlignment := none, positionSize := none, timestamp := 0 }, ?_⟩
  apply predictSetup_prediction_bounds setupW1 [] 0
  simp [predictSetup, setupW1, validateSetup, findSimilarTrades,
    calculateProbability, calculateEntry, calculateStopLoss,
    adjustForVolatility, analyzeTimeframes, calculatePositionSize,
    jsMulC, jsOfOpt]
  norm_num

/-- C2: the source's similarity selection coincides with the spec's
two-tier description (inclusive `0.2` tolerance, fallback to `0.5`, first
five in history order). -/
theorem findSimilarTrades_eq_selectSpec (setup : TradeSetup)
    (history : List TradeRecord) :
    findSimilarTrades setup history = selectSpec setup history := by
  cases history with
  | nil => simp [findSimilarTrades, selectSpec, tierFilter]
  | cons a t => rfl

theorem avgWeight_ge (l : List TradeRecord) (now : ℚ) (hne : l ≠ []) :
    1/5 ≤ (l.map fun t => calculateTradeWeight t now).sum /
      (((l.map fun t => calculateTradeWeight t now).length : ℕ) : ℚ) := by
  have hlen : 0 < (l.map fun t => calculateTradeWeight t now).length := by
    simpa using List.length_pos.mpr hne
  have hsum : ((l.map fun t => calculateTradeWeight t now).length) • ((1:ℚ)/5) ≤
      (l.map fun t => calculateTradeWeight t now).sum := by
    apply List.card_nsmul_le_sum
    intro x hx
    obtain ⟨t, _, rfl⟩ := List.mem_map.mp hx
    exact calculateTradeWeight_ge t now
  have hlenQ : (0:ℚ) < (((l.map fun t => calculateTradeWeight t now).length : ℕ) : ℚ) := by
    exact_mod_cast hlen
  rw [le_div_iff₀ hlenQ]
  calc (1:ℚ)/5 * ((l.map fun t => calculateTradeWeight t now).length : ℚ)
      = ((l.map fun t => calculateTradeWeight t now).length) • ((1:ℚ)/5) := by
        rw [nsmul_eq_mul]; ring
    _ ≤ (l.map fun t => calculateTradeWeight t now).sum := hsum

theorem confidence_eq_of_ne_nil (l : List TradeRecord) (now : ℚ) (hne : l ≠ []) :
    (calculateProbability l now).confidence =
      round2 (max (15/100)
        (min ((l.map fun t => calculateTradeWeight t now).sum /
          (((l.map fun t => calculateTradeWeight t now).length : ℕ) : ℚ)) 1)) := by
  cases l with
  | nil => exact absurd rfl hne
  | cons a t => rfl

/-- C10: every per-record weight is floored at `0.2`, hence the average
weight is at least `0.2`; for a non-empty match the confidence is at
least `0.2` and equals the rounded `min(avg, 1)` (the `0.15` clamp is
vacuous), and no confidence value lies strictly between `0.1` and
`0.2`. -/
theorem confidence_floor (l : List TradeRecord) (now : ℚ) :
    (∀ t : TradeRecord, 1/5 ≤ calculateTradeWeight t now) ∧
    (l ≠ [] →
      1/5 ≤ (calculateProbability l now).confidence ∧
        (calculateProbability l now).confidence =
          round2 (min ((l.map fun t => calculateTradeWeight t now).sum /
            (((l.map fun t => calculateTradeWeight t now).length : ℕ) : ℚ)) 1)) ∧
    ¬(1/10 < (calculateProbability l now).confidence ∧
        (calculateProbability l now).confidence < 1/5) := by
  have hmain : l ≠ [] →
      1/5 ≤ (calculateProbability l now).confidence ∧
        (calculateProbability l now).confidence =
          round2 (min ((l.map fun t => calculateTradeWeight t now).sum /
            (((l.map fun t => calculateTradeWeight t now).length : ℕ) : ℚ)) 1) := by
    intro hne
    have havg := avgWeight_ge l now hne
    have hmin : (1:ℚ)/5 ≤
        min ((l.map fun t => calculateTradeWeight t now).sum /
          (((l.map fun t => calculateTradeWeight t now).length : ℕ) : ℚ)) 1 :=
      le_min havg (by norm_num)
    have hmax : max ((15:ℚ)/100)
        (min ((l.map fun t => calculateTradeWeight t now).sum /
          (((l.map fun t => calculateTradeWeight t now).length : ℕ) : ℚ)) 1) =
        min ((l.map fun t => calculateTradeWeight t now).sum /
          (((l.map fun t => calculateTradeWeight t now).length : ℕ) : ℚ)) 1 :=
      max_eq_right (le_trans (by norm_num) hmin)
    rw [confidence_eq_of_ne_nil l now hne, hmax]
    constructor
    · have := round2_mono hmin
      rwa [round2_fifth] at this
    · rfl
  refine ⟨fun t => calculateTradeWeight_ge t now, hmain, ?_⟩
  rintro ⟨h1, h2⟩
  by_cases hne : l = []
  · subst hne
    have : (calculateProbability ([] : List TradeRecord) now).confidence = 1/10 := rfl
    rw [this] at h1
    exact lt_irrefl _ h1
  · exact absurd ((hmain hne).1) (not_le.mpr h2)

theorem confidence_floor_witness :
    1/5 ≤ (calculateProbability
      [{ modelType := "FVG-RD", session := "Asian", qualityScore := 4,
         result := "Success" }] 0).confidence :=
  ((confidence_floor
    [{ modelType := "FVG-RD", session := "Asian", qualityScore := 4,
       result := "Success" }] 0).2.1 (by simp)).1

/-- C3: `predictSetup` fails with the validation error exactly when the
model type is empty/missing, the session is empty/missing, or the quality
score falls outside `[0, 5]`; in particular the bounds are inclusive and
no other input degrades into a failure. -/
theorem predictSetup_error_iff (setup : TradeSetup)
    (history : List TradeRecord) (now : ℚ) :
    predictSetup setup history now = Except.error "Invalid setup data" ↔
      (setup.modelType = "" ∨ setup.session = "" ∨
        setup.qualityScore < 0 ∨ 5 < setup.qualityScore) := by
  have hval : validateSetup setup = true ↔
      (setup.modelType ≠ "" ∧ setup.session ≠ "" ∧
        0 ≤ setup.qualityScore ∧ setup.qualityScore ≤ 5) := by
    unfold validateSetup
    simp [and_assoc]
  unfold predictSetup
  split
  · next hcond =>
    simp only [Bool.not_eq_true'] at hcond
    constructor
    · intro _
      by_contra hc
      push_neg at hc
      have : validateSetup setup = true :=
        hval.mpr ⟨hc.1, hc.2.1, hc.2.2.1, hc.2.2.2⟩
      rw [this] at hcond
      exact absurd hcond (by simp)
    · intro _
      rfl
  · next hcond =>
    have hcond' : validateSetup setup = true := by simpa using hcond
    have hc := hval.mp hcond'
    constructor
    · intro h
      exact absurd h (by simp)
    · intro hdisj
      rcases hdisj with h | h | h | h
      · exact absurd h hc.1
      · exact absurd h hc.2.1
      · exact absurd h (not_lt.mpr hc.2.2.1)
      · exact absurd h (not_lt.mpr hc.2.2.2)

/-- C6: when the setup validates but the history is empty - or no record
passes either matching tier - the prediction succeeds with exactly
probability `0` and confidence `0.1`. -/
theorem predictSetup_empty_match (setup : TradeSetup)
    (history : List TradeRecord) (now : ℚ)
    (hval : validateSetup setup = true)
    (hmatch : history = [] ∨ findSimilarTrades setup history = []) :
    ∃ pred : Prediction, predictSetup setup history now = Except.ok pred ∧
      pred.probability = 0 ∧ pred.confidence = 1/10 := by
  have hsim : findSimilarTrades setup history = [] := by
    rcases hmatch with rfl | h
    · simp [findSimilarTrades]
    · exact h
  unfold predictSetup
  rw [hval]
  rw [if_neg (by simp)]
  exact ⟨_, rfl, by simp [hsim, calculateProbability],
    by simp [hsim, calculateProbability]⟩

theorem predictSetup_empty_match_witness :
    ∃ pred : Prediction,
      predictSetup
        { modelType := "FVG-RD", session := "NY", qualityScore := 3 }
        [] 0 = Except.ok pred ∧
        pred.probability = 0 ∧ pred.confidence = 1/10 :=
  predictSetup_empty_match
    { modelType := "FVG-RD", session := "NY", qualityScore := 3 }
    [] 0 (by simp [validateSetup]; norm_num) (Or.inl rfl)

/-- C7: the suggested stop loss is `currentPrice * (1 - 0.01)` with the
fixed 1% constant - independent of `maxRiskPercent` - and the adjusted
stop loss multiplies it by `0.85` exactly for high volatility; at price
`100` with high volatility the adjustment is strictly tighter. -/
theorem stopLoss_spec (s : TradeSetup) (p : ℚ) (hp : s.currentPrice = some p) :
    calculateStopLoss s = JSNum.num (p * (1 - 1/100)) ∧
    (∀ r : Option ℚ, calculateStopLoss { s with maxRiskPercent := r } =
      calculateStopLoss s) ∧
    (s.volatility = some "high" →
      adjustForVolatility s (calculateStopLoss s) =
        JSNum.num (p * (1 - 1/100) * (85/100))) ∧
    (s.volatility ≠ some "high" →
      adjustForVolatility s (calculateStopLoss s) = calculateStopLoss s) ∧
    (p = 100 → s.volatility = some "high" →
      ∃ adj sug : ℚ,
        adjustForVolatility s (calculateStopLoss s) = JSNum.num adj ∧
          calculateStopLoss s = JSNum.num sug ∧ adj < sug) := by
  have hsl : calculateStopLoss s = JSNum.num (p * (1 - 1/100)) := by
    simp [calculateStopLoss, jsOfOpt, hp, jsMulC]
  refine ⟨hsl, ?_, ?_, ?_, ?_⟩
  · intro r
    simp [calculateStopLoss, hp]
  · intro hv
    rw [adjustForVolatility, if_pos (by simp [hv]), hsl]
    simp [jsMulC]
  · intro hv
    rw [adjustForVolatility, if_neg (by simp [hv])]
  · intro hp100 hv
    refine ⟨p * (1 - 1/100) * (85/100), p * (1 - 1/100), ?_, hsl, ?_⟩
    · rw [adjustForVolatility, if_pos (by simp [hv]), hsl]
      simp [jsMulC]
    · subst hp100
      norm_num

/-- Concrete input for the C7 witness. -/
def setupW7 : TradeSetup :=
  { modelType := "FVG-RD", session := "London", qualityScore := 4,
    currentPrice := some 100, volatility := some "high" }

theorem stopLoss_spec_witness :
    ∃ adj sug : ℚ,
      adjustForVolatility setupW7 (calculateStopLoss setupW7) = JSNum.num adj ∧
        calculateStopLoss setupW7 = JSNum.num sug ∧ adj < sug :=
  (stopLoss_spec setupW7 100 rfl).2.2.2.2 rfl rfl

/-- Concrete input refuting C8: both position-sizing inputs present, but
the stop distance is zero (`currentPrice = 0`). -/
def setupC8 : TradeSetup :=
  { modelType := "FVG-RD", session := "London", qualityScore := 4,
    currentPrice := some 0, accountBalance := some 10000,
    maxRiskPercent := some 1 }

theorem calculatePositionSize_not_null_on_zero_distance :
    calculatePositionSize setupC8 (calculateStopLoss setupC8) =
      some JSNum.posInf ∧
    calculatePositionSize setupC8 (calculateStopLoss setupC8) ≠ none := by
  have h : calculatePositionSize setupC8 (calculateStopLoss setupC8) =
      some JSNum.posInf := by
    norm_num [calculatePositionSize, setupC8, calculateStopLoss, jsOfOpt,
      jsMulC, jsSub, jsAbs, jsDiv, jsFloor]
  exact ⟨h, by rw [h]; simp⟩

/-- C8 (amended): with a present price, the position size is `null` iff
`accountBalance` or `maxRiskPercent` is absent or zero; when both are
present and non-zero and the stop distance is positive it is the floored
risk/stop-distance quotient (non-negative for non-negative inputs); with
a zero stop distance the division by zero yields `Infinity`, not
`null`. -/
theorem calculatePositionSize_spec (s : TradeSetup) (p : ℚ)
    (hp : s.currentPrice = some p) :
    (∀ bal pct : ℚ, s.accountBalance = some bal → s.maxRiskPercent = some pct →
      bal ≠ 0 → pct ≠ 0 → p ≠ 0 →
      calculatePositionSize s (calculateStopLoss s) =
        some (JSNum.num ((⌊bal * (pct / 100) / |p - p * (1 - 1/100)|⌋ : ℤ) : ℚ)) ∧
        (0 ≤ bal → 0 ≤ pct →
          (0:ℤ) ≤ ⌊bal * (pct / 100) / |p - p * (1 - 1/100)|⌋)) ∧
    (∀ bal pct : ℚ, s.accountBalance = some bal → s.maxRiskPercent = some pct →
      bal ≠ 0 → pct ≠ 0 → p = 0 → 0 < bal * (pct / 100) →
      calculatePositionSize s (calculateStopLoss s) = some JSNum.posInf) ∧
    (calculatePositionSize s (calculateStopLoss s) = none ↔
      s.accountBalance = none ∨ s.maxRiskPercent = none ∨
        s.accountBalance = some 0 ∨ s.maxRiskPercent = some 0) := by
  have hsl : calculateStopLoss s = JSNum.num (p * (1 - 1/100)) := by
    simp [calculateStopLoss, jsOfOpt, hp, jsMulC]
  have hdist : jsAbs (jsSub (jsOfOpt s.currentPrice) (calculateStopLoss s)) =
      JSNum.num |p - p * (1 - 1/100)| := by
    rw [hsl, hp]
    simp [jsOfOpt, jsSub, jsAbs]
  have habs0 : (|p - p * (1 - 1/100)| = 0) ↔ p = 0 := by
    rw [abs_eq_zero]
    constructor
    · intro h
      nlinarith
    · intro h
      subst h
      ring
  refine ⟨?_, ?_, ?_⟩
  · intro bal pct hb hr hb0 hr0 hp0
    constructor
    · simp only [calculatePositionSize, hb, hr]
      rw [if_neg (by tauto)]
      simp only [hdist, jsDiv]
      rw [if_neg (fun h => hp0 (habs0.mp h))]
      simp [jsFloor]
    · intro hbal hpct
      apply Int.floor_nonneg.mpr
      apply div_nonneg
      · positivity
      · exact abs_nonneg _
  · intro bal pct hb hr hb0 hr0 hp0 hrisk
    simp only [calculatePositionSize, hb, hr]
    rw [if_neg (by tauto)]
    have hz : |p - p * (1 - 1/100)| = 0 := habs0.mpr hp0
    simp only [hdist, jsDiv, hz]
    rw [if_pos trivial, if_neg hrisk.ne', if_pos hrisk]
    simp [jsFloor]
  · rcases hA : s.accountBalance with _ | bal
    · simp [calculatePositionSize, hA]
    · rcases hB : s.maxRiskPercent with _ | pct
      · simp [calculatePositionSize, hA, hB]
      · by_cases h0 : bal = 0 ∨ pct = 0
        · simp only [calculatePositionSize, hA, hB]
          rw [if_pos h0]
          simp
          tauto
        · simp only [calculatePositionSize, hA, hB]
          rw [if_neg h0]
          push_neg at h0
          simp [h0.1, h0.2]

/-- Concrete input for the C8 witness (the spec's Scenario D). -/
def setupW8 : TradeSetup :=
  { modelType := "FVG-RD", session := "London", qualityScore := 44/10,
    currentPrice := some 100, accountBalance := some 10000,
    maxRiskPercent := some 1 }

theorem calculatePositionSize_spec_witness :
    calculatePositionSize setupW8 (calculateStopLoss setupW8) =
      some (JSNum.num 100) := by
  have h := ((calculatePositionSize_spec setupW8 100 rfl).1 10000 1 rfl rfl
    (by norm_num) (by norm_num) (by norm_num)).1
  rw [h]
  norm_num

theorem findSimilarTrades_subset (setup : TradeSetup)
    (history : List TradeRecord) :
    findSimilarTrades setup history ⊆ history := by
  simp only [findSimilarTrades]
  split
  · simp
  · split
    · intro x hx
      exact (List.filter_sublist _).subset (List.take_subset _ _ hx)
    · intro x hx
      exact (List.filter_sublist _).subset (List.take_subset _ _ hx)

theorem calculateTradeWeight_no_timestamp (t : TradeRecord)
    (h : t.timestamp = none) (t1 t2 : ℚ) :
    calculateTradeWeight t t1 = calculateTradeWeight t t2 := by
  unfold calculateTradeWeight
  rw [h]

theorem calculateProbability_no_timestamp (l : List TradeRecord)
    (h : ∀ r ∈ l, r.timestamp = none) (t1 t2 : ℚ) :
    calculateProbability l t1 = calculateProbability l t2 := by
  unfold calculateProbability
  split
  · rfl
  · have hmap : (l.map fun t => calculateTradeWeight t t1) =
        (l.map fun t => calculateTradeWeight t t2) :=
      List.map_congr_left fun r hr =>
        calculateTradeWeight_no_timestamp r (h r hr) t1 t2
    rw [hmap]

/-- The prediction's outputs other than the reported timestamp. -/
def coreOutputs (p : Prediction) :
    ℚ × ℚ × ℚ × JSNum × JSNum ×
      Option (List (String × String × ℚ)) × Option JSNum :=
  (p.probability, p.confidence, p.recommendedEntry, p.suggestedStopLoss,
    p.adjustedStopLoss, p.timeframeAlignment, p.positionSize)

/-- C9 (amended): `predictSetup` is a pure function of setup, history and
the current time; when no history record carries a timestamp, every
output except the reported timestamp is independent of the clock. (With
timestamped records the recency weighting makes the confidence
clock-dependent, as the counterexample shows.) -/
theorem predictSetup_clock_dependence_only (s : TradeSetup)
    (h : List TradeRecord) (t1 t2 : ℚ)
    (hts : ∀ r ∈ h, r.timestamp = none) :
    (predictSetup s h t1).map coreOutputs =
      (predictSetup s h t2).map coreOutputs := by
  unfold predictSetup
  split
  · rfl
  · have hsub := findSimilarTrades_subset s h
    have hprob : calculateProbability (findSimilarTrades s h) t1 =
        calculateProbability (findSimilarTrades s h) t2 :=
      calculateProbability_no_timestamp _ (fun r hr => hts r (hsub hr)) t1 t2
    simp [Except.map, coreOutputs, hprob]

theorem predictSetup_clock_dependence_only_witness :
    (predictSetup { modelType := "FVG-RD", session := "NY", qualityScore := 3 }
      [{ modelType := "FVG-RD", session := "NY", qualityScore := 3,
         result := "Success" }] 0).map coreOutputs =
      (predictSetup { modelType := "FVG-RD", session := "NY", qualityScore := 3 }
        [{ modelType := "FVG-RD", session := "NY", qualityScore := 3,
           result := "Success" }] 12345).map coreOutputs :=
  predictSetup_clock_dependence_only _ _ 0 12345 (by simp)

/-- Concrete setup showing C9 false as stated: a timestamped record makes
the confidence depend on the wall clock. -/
def setupC9 : TradeSetup :=
  { modelType := "FVG-RD", session := "Asian", qualityScore := 4,
    currentPrice := some 100 }

/-- History for the C9 counterexample: one matching record journaled at
the epoch. -/
def historyC9 : List TradeRecord :=
  [{ modelType := "FVG-RD", session := "Asian", qualityScore := 4,
     result := "Success", timestamp := some 0 }]

theorem predictSetup_not_clock_free :
    (predictSetup setupC9 historyC9 0).map Prediction.confidence ≠
      (predictSetup setupC9 historyC9 8640000000).map Prediction.confidence := by
  norm_num [predictSetup, setupC9, historyC9, validateSetup,
    findSimilarTrades, calculateProbability, calculateTradeWeight, round2,
    round_eq, List.filter_cons, abs_le, Except.map]
  simp
  norm_num

/-- The spec's Scenario A setup. -/
def setupA : TradeSetup :=
  { modelType := "FVG-RD", session := "London", qualityScore := 44/10,
    currentPrice := some 100 }

/-- The spec's Scenario A history: two successful exact matches. -/
def historyA : List TradeRecord :=
  [{ modelType := "FVG-RD", session := "London", qualityScore := 45/10,
     result := "Success" },
   { modelType := "FVG-RD", session := "London", qualityScore := 43/10,
     result := "Success" }]

/-- C4: on Scenario A the code returns probability `1.0` as the claim
says, but confidence `1.0`, not the claimed `0.2` (the average trade
weight `1.345` is clamped to `1`). -/
theorem predictSetup_scenarioA :
    (predictSetup setupA historyA 0).map
      (fun p => (p.probability, p.confidence)) = Except.ok (1, 1) := by
  norm_num [predictSetup, setupA, historyA, validateSetup,
    findSimilarTrades, calculateProbability, calculateTradeWeight, round2,
    round_eq, List.filter_cons, abs_le, Except.map]
  simp

/-- The spec's Scenario B setup. -/
def setupB : TradeSetup :=
  { modelType := "FVG-RD", session := "Asian", qualityScore := 4,
    currentPrice := some 100 }

/-- The spec's Scenario B history: a single successful exact match. -/
def historyB : List TradeRecord :=
  [{ modelType := "FVG-RD", session := "Asian", qualityScore := 4,
     result := "Success" }]

/-- C5: on Scenario B the single matched record gives weight `1.24`, so
the code returns confidence `1.0`, not the claimed single-sample floor
`0.1`. -/
theorem predictSetup_scenarioB :
    (predictSetup setupB historyB 0).map
      (fun p => (p.probability, p.confidence)) = Except.ok (1, 1) := by
  norm_num [predictSetup, setupB, historyB, validateSetup,
    findSimilarTrades, calculateProbability, calculateTradeWeight, round2,
    round_eq, List.filter_cons, abs_le, Except.map]
  simp

end TradePredictor

